import Mathlib

/-
Verification development for the copilot-metrics-dashboard core:
the seat aggregator (`copilot-seat-service`), the per-team metrics fetcher
(`copilot-metrics-service`), and the client-side dashboard filter state
(`dashboard-state.tsx`) together with its refresh protocol.

Conventions of the shallow embedding:
* Dates and timestamps are modelled as natural numbers (epoch day numbers /
  abstract instants); JavaScript `new Date(x) >= new Date(y)` becomes `y ≤ x`.
* The wall clock read by the services (`new Date()` minus 30 days) is passed
  in explicitly as a `thirtyDaysAgo` parameter.
* JavaScript arrays are Lean lists; `Array.prototype.sort` (stable) is
  modelled by `List.insertionSort`, which is stable.
* Nullable / optional JavaScript values are `Option`; a falsy string field
  (`""`, `null`, `undefined`) guarding a branch is modelled by `Option` or by
  an explicit `≠ ""` test, following each use site.
* The in-place mutation of the valtio store is modelled by explicit state
  passing: every method of `DashboardState` becomes a function from the state
  (plus its inputs and, for asynchronous methods, the outcome of the awaited
  server calls) to the new state.
-/

namespace CopilotDashboard

/-! ### Data model (`@/features/common/models`, fields per spec §3) -/

/-- One per-language/per-editor usage sub-record of a day's usage record
(spec §3, `Breakdown`). -/
structure Breakdown where
  language : String
  editor : String
  suggestions_count : Nat
  acceptances_count : Nat
  chat_count : Nat
deriving DecidableEq

/-- One day of aggregate usage (`CopilotUsageOutput`): the date plus the
breakdown list, and the three time-frame labels attached at ingestion
(spec §3, `UsageRecord`). `day` is an epoch day number. -/
structure CopilotUsageOutput where
  day : Nat
  time_frame_week : String
  time_frame_month : String
  time_frame_display : String
  breakdown : List Breakdown
deriving DecidableEq

/-- A team (`GitHubTeam`): id if present, and a name (spec §3, `Team`). -/
structure GitHubTeam where
  id : Option Nat
  name : String
deriving DecidableEq

/-- The user a seat is assigned to. -/
structure Assignee where
  login : String
deriving DecidableEq

/-- One license-seat assignment (`SeatAssignment`).  `last_activity_at` is
`none` when the JavaScript field is falsy (`null`/`undefined`/empty), and
`assigning_team` is `none` when the seat was not granted through a team. -/
structure SeatAssignment where
  assignee : Assignee
  last_activity_at : Option Nat
  assigning_team : Option GitHubTeam
deriving DecidableEq

/-- One paginated seat-listing document (`CopilotSeatsData`, spec §3,
`SeatRecord`).  `total_active_seats` is `Option` because stored documents
predating the field have it `null`/`undefined`. -/
structure CopilotSeatsData where
  enterprise : Option String
  organization : Option String
  total_seats : Nat
  total_active_seats : Option Nat
  seats : List SeatAssignment
  page : Nat
  has_next_page : Bool
  last_update : Option String
  date : String
  id : String
deriving DecidableEq

/-! ### Seat aggregator (`copilot-seat-service`, `aggregateSeatsData`) -/

/-- The 30-day activity-window test used everywhere in the seat service:
a seat is active when it has a last-activity timestamp and that timestamp is
on or after the `thirtyDaysAgo` cutoff (source: the
`if (!seat.last_activity_at) return false; lastActivityDate >= thirtyDaysAgo`
filter body). -/
def isActiveSeat (thirtyDaysAgo : Nat) (seat : SeatAssignment) : Bool :=
  match seat.last_activity_at with
  | none => false
  | some t => thirtyDaysAgo ≤ t

/-- The team-filter test of `aggregateSeatsData`: the seat's assigning team
exists, has a truthy name, and that name is in the filter (source:
`seat.assigning_team?.name && teamFilter.includes(seat.assigning_team.name)`). -/
def seatMatchesTeamFilter (teamFilter : List String) (seat : SeatAssignment) : Bool :=
  match seat.assigning_team with
  | none => false
  | some team => team.name ≠ "" && teamFilter.contains team.name

/-- First-occurrence-wins deduplication by assignee login; models the
`Map<string, SeatAssignment>` keyed on `seat.assignee.login` filled by a
forward pass with a has-check, read back in insertion order. -/
def dedupSeatsByLoginAux (seen : List String) : List SeatAssignment → List SeatAssignment
  | [] => []
  | seat :: rest =>
    if seen.contains seat.assignee.login then
      dedupSeatsByLoginAux seen rest
    else
      seat :: dedupSeatsByLoginAux (seat.assignee.login :: seen) rest

/-- Deduplicate seats by assignee login, first occurrence (in list order) wins. -/
def dedupSeatsByLogin (seats : List SeatAssignment) : List SeatAssignment :=
  dedupSeatsByLoginAux [] seats

/-- Embeds `aggregateSeatsData` from `copilot-seat-service`: combines one or more
seat pages into a single summary.  `teamFilter = []` models both an absent
and an empty filter (the source guard is `teamFilter && teamFilter.length > 0`).
The zero-page branch returns the literal `{total_seats: 0, total_active_seats: 0,
seats: []}` (its remaining fields are absent in the source cast and modelled by
defaults); the first page's missing `total_active_seats` is backfilled for
backwards compatibility exactly as in the source. -/
def aggregateSeatsData (thirtyDaysAgo : Nat) (data : List CopilotSeatsData)
    (teamFilter : List String) : CopilotSeatsData :=
  match data with
  | [] =>
    { enterprise := none, organization := none, total_seats := 0,
      total_active_seats := some 0, seats := [], page := 0,
      has_next_page := false, last_update := none, date := "", id := "" }
  | d0 :: rest =>
    -- backwards compatibility with documents lacking total_active_seats
    let d0 :=
      if d0.total_active_seats = none then
        { d0 with
          total_active_seats := some (d0.seats.filter (isActiveSeat thirtyDaysAgo)).length }
      else d0
    match rest with
    | [] =>
      let filteredSeats :=
        if teamFilter ≠ [] then d0.seats.filter (seatMatchesTeamFilter teamFilter)
        else d0.seats
      let activeSeatsCount := (filteredSeats.filter (isActiveSeat thirtyDaysAgo)).length
      { d0 with
        total_seats := filteredSeats.length,
        total_active_seats := some activeSeatsCount,
        seats := filteredSeats }
    | _ :: _ =>
      let allSeats := (d0 :: rest).flatMap (fun seatData => seatData.seats)
      let filteredSeats :=
        if teamFilter ≠ [] then allSeats.filter (seatMatchesTeamFilter teamFilter)
        else allSeats
      let seats := dedupSeatsByLogin filteredSeats
      let activeSeatsCount := (seats.filter (isActiveSeat thirtyDaysAgo)).length
      { enterprise := d0.enterprise, organization := d0.organization,
        total_seats := seats.length, total_active_seats := some activeSeatsCount,
        page := d0.page, has_next_page := false, last_update := d0.last_update,
        date := d0.date, id := d0.id, seats := seats }

/-- C1: for every list of seat pages and every (optional) team filter, the
aggregated summary satisfies `total_active_seats ≤ total_seats`: on every
branch (zero pages, one page, several pages) the two totals are recomputed as
the length of the surviving-seat list and the length of its active sublist. -/
theorem aggregate_active_le_total (thirtyDaysAgo : Nat) (data : List CopilotSeatsData)
    (teamFilter : List String) :
    ∃ k, (aggregateSeatsData thirtyDaysAgo data teamFilter).total_active_seats = some k ∧
      k ≤ (aggregateSeatsData thirtyDaysAgo data teamFilter).total_seats := by
  match data with
  | [] => exact ⟨0, rfl, Nat.le_refl 0⟩
  | [d0] =>
    simp only [aggregateSeatsData]
    split <;> split <;> exact ⟨_, rfl, List.length_filter_le _ _⟩
  | d0 :: d1 :: rest =>
    simp only [aggregateSeatsData]
    split <;> split <;> exact ⟨_, rfl, List.length_filter_le _ _⟩

/-- The multi-page aggregation pipeline in the step order the spec sentence
states — flatten, then deduplicate by login, then apply the team filter, then
recompute the totals.  This definition follows the spec's words and exists
only to be compared against `aggregateSeatsData` (refinement check). -/
def claimOrderAggregate (thirtyDaysAgo : Nat) (data : List CopilotSeatsData)
    (teamFilter : List String) : CopilotSeatsData :=
  match data with
  | [] =>
    { enterprise := none, organization := none, total_seats := 0,
      total_active_seats := some 0, seats := [], page := 0,
      has_next_page := false, last_update := none, date := "", id := "" }
  | d0 :: rest =>
    let allSeats := (d0 :: rest).flatMap (fun seatData => seatData.seats)
    let deduped := dedupSeatsByLogin allSeats
    let seats :=
      if teamFilter ≠ [] then deduped.filter (seatMatchesTeamFilter teamFilter)
      else deduped
    { enterprise := d0.enterprise, organization := d0.organization,
      total_seats := seats.length,
      total_active_seats := some (seats.filter (isActiveSeat thirtyDaysAgo)).length,
      page := d0.page, has_next_page := false, last_update := d0.last_update,
      date := d0.date, id := d0.id, seats := seats }

/-- The multi-page aggregation pipeline in the step order the source actually
implements — flatten, then apply the team filter, then deduplicate by login,
then recompute the totals. -/
def codeOrderAggregate (thirtyDaysAgo : Nat) (data : List CopilotSeatsData)
    (teamFilter : List String) : CopilotSeatsData :=
  match data with
  | [] =>
    { enterprise := none, organization := none, total_seats := 0,
      total_active_seats := some 0, seats := [], page := 0,
      has_next_page := false, last_update := none, date := "", id := "" }
  | d0 :: rest =>
    let allSeats := (d0 :: rest).flatMap (fun seatData => seatData.seats)
    let filteredSeats :=
      if teamFilter ≠ [] then allSeats.filter (seatMatchesTeamFilter teamFilter)
      else allSeats
    let seats := dedupSeatsByLogin filteredSeats
    { enterprise := d0.enterprise, organization := d0.organization,
      total_seats := seats.length,
      total_active_seats := some (seats.filter (isActiveSeat thirtyDaysAgo)).length,
      page := d0.page, has_next_page := false, last_update := d0.last_update,
      date := d0.date, id := d0.id, seats := seats }

/-- First seat page of the C2 comparison: login `a` assigned via team `T1`. -/
def seatPageOne : CopilotSeatsData :=
  { enterprise := some "acme", organization := none, total_seats := 1,
    total_active_seats := some 1,
    seats := [{ assignee := { login := "a" }, last_activity_at := some 100,
                assigning_team := some { id := none, name := "T1" } }],
    page := 1, has_next_page := true, last_update := none,
    date := "2024-01-01", id := "doc1" }

/-- Second seat page of the C2 comparison: the same login `a`, now assigned
via team `T2`. -/
def seatPageTwo : CopilotSeatsData :=
  { enterprise := some "acme", organization := none, total_seats := 1,
    total_active_seats := some 1,
    seats := [{ assignee := { login := "a" }, last_activity_at := some 100,
                assigning_team := some { id := none, name := "T2" } }],
    page := 2, has_next_page := false, last_update := none,
    date := "2024-01-01", id := "doc2" }

/-- C2 counterexample: on two pages that both carry a seat for login `a` —
first assigned through team `T1`, then through `T2` — with team filter
`["T2"]`, the source's aggregation keeps one seat (it filters before
deduplicating, so the `T2` occurrence survives), while the claimed step order
(deduplicate before filtering) keeps the first occurrence `T1` and then drops
it, leaving zero seats.  The claim's stated order therefore does not describe
`aggregateSeatsData`. -/
theorem aggregate_step_order_counterexample :
    aggregateSeatsData 0 [seatPageOne, seatPageTwo] ["T2"] ≠
        claimOrderAggregate 0 [seatPageOne, seatPageTwo] ["T2"] ∧
    (aggregateSeatsData 0 [seatPageOne, seatPageTwo] ["T2"]).total_seats = 1 ∧
    (claimOrderAggregate 0 [seatPageOne, seatPageTwo] ["T2"]).total_seats = 0 := by
  decide

/-- C2 (amended): for every list of two or more seat pages and every non-empty
team filter, the aggregation flattens all seats arrays, then applies the team
filter, then deduplicates by assignee login (first occurrence in input order
wins), then recomputes `total_seats` and `total_active_seats` from the
surviving seats — i.e. the team filter is applied before deduplication, not
after it. -/
theorem aggregate_step_order (thirtyDaysAgo : Nat) (a b : CopilotSeatsData)
    (rest : List CopilotSeatsData) (teamFilter : List String) (hne : teamFilter ≠ []) :
    aggregateSeatsData thirtyDaysAgo (a :: b :: rest) teamFilter =
      codeOrderAggregate thirtyDaysAgo (a :: b :: rest) teamFilter := by
  simp only [aggregateSeatsData, codeOrderAggregate, ne_eq, hne, not_false_eq_true,
    if_true, ite_true]
  split <;> rfl

/-- Witness for C2 (amended) at the concrete two-page input. -/
theorem aggregate_step_order_witness :
    (["T2"] : List String) ≠ [] ∧
    aggregateSeatsData 0 [seatPageOne, seatPageTwo] ["T2"] =
      codeOrderAggregate 0 [seatPageOne, seatPageTwo] ["T2"] :=
  ⟨by decide, aggregate_step_order 0 seatPageOne seatPageTwo [] ["T2"] (by decide)⟩

/-! ### Metrics fetcher (`copilot-metrics-service`, `getCopilotTeamsMetricsFromApi`) -/

/-- Embeds `ServerActionResponse` from `@/features/common/server-action-response`
(not included in the sources): either an OK payload or an ERROR with a list
of messages, as used by every service function. -/
inductive ServerActionResponse (α : Type) where
  | ok (response : α)
  | err (errors : List String)
deriving DecidableEq

/-- Embeds `result.status === "OK"`. -/
def ServerActionResponse.isOk {α : Type} : ServerActionResponse α → Bool
  | .ok _ => true
  | .err _ => false

/-- The records pushed for one result by the combine loop
(`if (result.status === "OK") allMetrics.push(...result.response)`). -/
def ServerActionResponse.okRecords {α : Type} : ServerActionResponse (List α) → List α
  | .ok response => response
  | .err _ => []

/-- Embeds `getCopilotTeamsMetricsFromApi`: fans one request out per team slug,
fails with the first failed result if any request failed, and otherwise
concatenates every team's records and sorts them ascending by day.
The per-team HTTP call `fetchCopilotMetrics(url, token, version, entityName)`
(a transport black box, including its time-frame labelling) is abstracted as
`fetchTeam`; `Promise.all` preserves the order of the team list, and the
stable JavaScript `Array.prototype.sort` with comparator
`new Date(a.day) - new Date(b.day)` is `List.insertionSort` on `day`. -/
def getCopilotTeamsMetricsFromApi
    (fetchTeam : String → ServerActionResponse (List CopilotUsageOutput))
    (team : List String) : ServerActionResponse (List CopilotUsageOutput) :=
  match team with
  | [] => .ok []
  | t0 :: ts =>
    let teamMetricsResults := (t0 :: ts).map fetchTeam
    let failedResults := teamMetricsResults.filter (fun result => !result.isOk)
    match failedResults with
    | firstFailed :: _ => firstFailed
    | [] =>
      let allMetrics := teamMetricsResults.flatMap ServerActionResponse.okRecords
      .ok (allMetrics.insertionSort (fun x y => x.day ≤ y.day))

/-- C3: for a fetch over one or more team identifiers, if any per-team
request fails the whole call returns exactly the first failed result (an
error — no partial merge of the successful teams), and if every request
succeeds the call returns a permutation of the concatenation of all returned
records, sorted ascending by date. -/
theorem team_metrics_all_or_nothing
    (fetchTeam : String → ServerActionResponse (List CopilotUsageOutput))
    (team : List String) (hne : team ≠ []) :
    ((∃ t ∈ team, (fetchTeam t).isOk = false) →
      ∃ firstFailed,
        ((team.map fetchTeam).filter (fun result => !result.isOk)).head? = some firstFailed ∧
        getCopilotTeamsMetricsFromApi fetchTeam team = firstFailed ∧
        firstFailed.isOk = false) ∧
    ((∀ t ∈ team, (fetchTeam t).isOk = true) →
      ∃ sorted,
        getCopilotTeamsMetricsFromApi fetchTeam team = .ok sorted ∧
        sorted.Perm (team.flatMap (fun t => (fetchTeam t).okRecords)) ∧
        sorted.Sorted (fun x y => x.day ≤ y.day)) := by
  constructor
  · rintro ⟨t, ht, hfail⟩
    have hmem : fetchTeam t ∈ team.map fetchTeam := List.mem_map_of_mem _ ht
    cases hF : (team.map fetchTeam).filter (fun result => !result.isOk) with
    | nil =>
      exfalso
      have := List.filter_eq_nil_iff.mp hF _ hmem
      simp [hfail] at this
    | cons firstFailed restFailed =>
      have hprop : (!firstFailed.isOk) = true := by
        have hmemf : firstFailed ∈ (team.map fetchTeam).filter (fun result => !result.isOk) := by
          rw [hF]; exact List.mem_cons_self _ _
        exact (List.mem_filter.mp hmemf).2
      refine ⟨firstFailed, by simp [hF], ?_, by simpa using hprop⟩
      cases team with
      | nil => exact absurd rfl hne
      | cons t0 ts =>
        simp only [getCopilotTeamsMetricsFromApi]
        rw [hF]
  · intro hok
    have hF : (team.map fetchTeam).filter (fun result => !result.isOk) = [] := by
      refine List.filter_eq_nil_iff.mpr ?_
      rintro result hr
      obtain ⟨t, ht, rfl⟩ := List.mem_map.mp hr
      simp [hok t ht]
    cases team with
    | nil => exact absurd rfl hne
    | cons t0 ts =>
      have heq : getCopilotTeamsMetricsFromApi fetchTeam (t0 :: ts) =
          .ok ((((t0 :: ts).map fetchTeam).flatMap ServerActionResponse.okRecords).insertionSort
            (fun x y => x.day ≤ y.day)) := by
        simp only [getCopilotTeamsMetricsFromApi]
        rw [hF]
      refine ⟨_, heq, ?_, ?_⟩
      · rw [List.flatMap_map]
        exact List.perm_insertionSort _ _
      · haveI : IsTotal CopilotUsageOutput (fun x y => x.day ≤ y.day) :=
          ⟨fun x y => Nat.le_total x.day y.day⟩
        haveI : IsTrans CopilotUsageOutput (fun x y => x.day ≤ y.day) :=
          ⟨fun _ _ _ h1 h2 => Nat.le_trans h1 h2⟩
        exact List.sorted_insertionSort _ _

/-- Concrete per-team responses used by the C3 witness: team `beta` fails,
any other team returns one usage record. -/
def fetchTeamW : String → ServerActionResponse (List CopilotUsageOutput) :=
  fun teamSlug =>
    if teamSlug = "beta" then .err ["mock failure"]
    else .ok [{ day := 3, time_frame_week := "w1", time_frame_month := "m1",
                time_frame_display := "", breakdown := [] }]

/-- Witness for C3 on a team list of size 2 whose second team fails. -/
theorem team_metrics_all_or_nothing_witness :
    ∃ firstFailed,
      ((["alpha", "beta"].map fetchTeamW).filter (fun result => !result.isOk)).head? =
        some firstFailed ∧
      getCopilotTeamsMetricsFromApi fetchTeamW ["alpha", "beta"] = firstFailed ∧
      firstFailed.isOk = false :=
  (team_metrics_all_or_nothing fetchTeamW ["alpha", "beta"] (by decide)).1
    ⟨"beta", by decide, by decide⟩

/-! ### Dashboard filter state (`dashboard-state.tsx`, class `DashboardState`) -/

/-- Embeds `DropdownFilterItem` from `dashboard-state.tsx`. -/
structure DropdownFilterItem where
  value : String
  isSelected : Bool
deriving DecidableEq

/-- Embeds `TimeFrame` from `dashboard-state.tsx`. -/
inductive TimeFrame where
  | daily
  | weekly
  | monthly
deriving DecidableEq

/-- The `currentFilter` stored for data refreshing (date range + scope). -/
structure CurrentFilter where
  startDate : Option Nat
  endDate : Option Nat
  enterprise : Option String
  organization : Option String
deriving DecidableEq

/-- The fields of the `DashboardState` class; the valtio proxy's in-place
mutation is modelled by explicit state passing. -/
structure DashboardState where
  filteredData : List CopilotUsageOutput
  languages : List DropdownFilterItem
  editors : List DropdownFilterItem
  teams : List DropdownFilterItem
  timeFrame : TimeFrame
  hideWeekends : Bool
  isLoading : Bool
  seatsData : CopilotSeatsData
  teamsData : List GitHubTeam
  apiData : List CopilotUsageOutput
  hasPendingTeamChanges : Bool
  currentFilter : CurrentFilter
deriving DecidableEq

/-- JavaScript `new Date(item.day).getDay()` for a date modelled as an epoch
day number: epoch day 0 (1970-01-01) was a Thursday, so `getDay` is
`(day + 4) % 7` (0 = Sunday, 6 = Saturday). -/
def jsGetDay (day : Nat) : Nat := (day + 4) % 7

/-- Modelled from the spec: `formatDate` (imported from `@/utils/helpers`,
which is not among the sources) renders the display label of a single day;
its exact output format is a presentation detail the spec leaves open, so the
day number's canonical rendering is used. -/
def formatDate (day : Nat) : String := toString day

/-- The bucket label used by the grouping reduce: the record's week label for
the weekly time frame, its month label otherwise. -/
def bucketLabel (timeFrame : TimeFrame) (item : CopilotUsageOutput) : String :=
  match timeFrame with
  | .weekly => item.time_frame_week
  | _ => item.time_frame_month

/-- One step of the grouping reduce: append the record to its label's group,
creating the group at the end on first sight (JavaScript objects preserve
string-key insertion order). -/
def insertIntoGroups (groups : List (String × List CopilotUsageOutput)) (key : String)
    (item : CopilotUsageOutput) : List (String × List CopilotUsageOutput) :=
  match groups with
  | [] => [(key, [item])]
  | (label, members) :: rest =>
    if label = key then (label, members ++ [item]) :: rest
    else (label, members) :: insertIntoGroups rest key item

/-- The `items.reduce(...)` accumulator of `aggregatedDataByTimeFrame`:
groups the records by bucket label, keys in first-occurrence order. -/
def groupRecordsByLabel (timeFrame : TimeFrame) (items : List CopilotUsageOutput) :
    List (String × List CopilotUsageOutput) :=
  items.foldl (fun acc item => insertIntoGroups acc (bucketLabel timeFrame item) item) []

/-- Modelled from the spec: `groupByTimeFrame` (imported from
`@/utils/data-mapper`, which is not among the sources) collapses each bucket
into one synthesized row whose breakdown is the bucket's newest-dated member
record's breakdown set re-used as-is (spec §4.1); the bucket label becomes
the row's display label.  Ties on the date keep the later member. -/
def groupByTimeFrame (groups : List (String × List CopilotUsageOutput)) :
    List CopilotUsageOutput :=
  groups.filterMap (fun group =>
    match group.2 with
    | [] => none
    | m0 :: ms =>
      let newest := ms.foldl (fun best item => if best.day ≤ item.day then item else best) m0
      some { newest with time_frame_display := group.1 })

/-- Embeds `aggregatedDataByTimeFrame`: deep-copies `apiData` (value semantics in
the model), drops Saturday/Sunday rows when `hideWeekends` is set, and either
labels each day (daily) or groups by time-frame label and collapses each
bucket (weekly/monthly). -/
def aggregatedDataByTimeFrame (apiData : List CopilotUsageOutput) (timeFrame : TimeFrame)
    (hideWeekends : Bool) : List CopilotUsageOutput :=
  let items := apiData
  let items :=
    if hideWeekends then
      items.filter (fun item => jsGetDay item.day ≠ 0 && jsGetDay item.day ≠ 6)
    else items
  match timeFrame with
  | .daily => items.map (fun item => { item with time_frame_display := formatDate item.day })
  | _ => groupByTimeFrame (groupRecordsByLabel timeFrame items)

/-- Embeds `applyFilters`: recompute the derived `filteredData` from the raw data
and the current selections — bucket the data, intersect each record's
breakdown with the selected languages (when any) and then with the selected
editors (when any), and drop records whose breakdown became empty. -/
def applyFilters (s : DashboardState) : List CopilotUsageOutput :=
  let data := aggregatedDataByTimeFrame s.apiData s.timeFrame s.hideWeekends
  let selectedLanguages := s.languages.filter (fun item => item.isSelected)
  let selectedEditors := s.editors.filter (fun item => item.isSelected)
  let data :=
    if selectedLanguages.length ≠ 0 then
      data.map (fun item =>
        { item with
          breakdown := item.breakdown.filter (fun breakdown =>
            selectedLanguages.any (fun selectedLanguage =>
              selectedLanguage.value = breakdown.language)) })
    else data
  let data :=
    if selectedEditors.length ≠ 0 then
      data.map (fun item =>
        { item with
          breakdown := item.breakdown.filter (fun breakdown =>
            selectedEditors.any (fun editor => editor.value = breakdown.editor)) })
    else data
  data.filter (fun item => item.breakdown.length > 0)

/-- Flip `isSelected` on the first item with the given value (the source's
`find` returns the first match and the flip mutates that item). -/
def toggleFirstItem (value : String) : List DropdownFilterItem → List DropdownFilterItem
  | [] => []
  | item :: rest =>
    if item.value = value then { item with isSelected := !item.isSelected } :: rest
    else item :: toggleFirstItem value rest

/-- Embeds `filterLanguage`: toggle the matching language item if found and
recompute `filteredData`; not found is a no-op. -/
def filterLanguage (language : String) (s : DashboardState) : DashboardState :=
  match s.languages.find? (fun l => l.value = language) with
  | some _ =>
    let s := { s with languages := toggleFirstItem language s.languages }
    { s with filteredData := applyFilters s }
  | none => s

/-- Embeds `filterEditor`: toggle the matching editor item if found and recompute
`filteredData`; not found is a no-op. -/
def filterEditor (editor : String) (s : DashboardState) : DashboardState :=
  match s.editors.find? (fun l => l.value = editor) with
  | some _ =>
    let s := { s with editors := toggleFirstItem editor s.editors }
    { s with filteredData := applyFilters s }
  | none => s

/-- Embeds `filterTeam`: toggle the matching team item if found, recompute
`filteredData`, and mark the pending team change; not found is a no-op. -/
def filterTeam (team : String) (s : DashboardState) : DashboardState :=
  match s.teams.find? (fun t => t.value = team) with
  | some _ =>
    let s := { s with teams := toggleFirstItem team s.teams }
    let s := { s with filteredData := applyFilters s }
    { s with hasPendingTeamChanges := true }
  | none => s

/-- Embeds `toggleWeekendFilter`. -/
def toggleWeekendFilter (hide : Bool) (s : DashboardState) : DashboardState :=
  let s := { s with hideWeekends := hide }
  { s with filteredData := applyFilters s }

/-- Embeds `onTimeFrameChange`. -/
def onTimeFrameChange (timeFrame : TimeFrame) (s : DashboardState) : DashboardState :=
  let s := { s with timeFrame := timeFrame }
  { s with filteredData := applyFilters s }

/-- Embeds `extractUniqueLanguages`: collect the first occurrence of every breakdown
language as an unselected item, then sort by value (`localeCompare` modelled
as the standard string order). -/
def extractUniqueLanguages (apiData : List CopilotUsageOutput) : List DropdownFilterItem :=
  let languages := apiData.foldl (fun acc item =>
    item.breakdown.foldl (fun acc breakdown =>
      if acc.any (fun language => language.value = breakdown.language) then acc
      else acc ++ [{ value := breakdown.language, isSelected := false }]) acc) []
  languages.insertionSort (fun a b => a.value ≤ b.value)

/-- Embeds `extractUniqueEditors`: same shape as `extractUniqueLanguages` over the
breakdown editors. -/
def extractUniqueEditors (apiData : List CopilotUsageOutput) : List DropdownFilterItem :=
  let editors := apiData.foldl (fun acc item =>
    item.breakdown.foldl (fun acc breakdown =>
      if acc.any (fun editor => editor.value = breakdown.editor) then acc
      else acc ++ [{ value := breakdown.editor, isSelected := false }]) acc) []
  editors.insertionSort (fun a b => a.value ≤ b.value)

/-- Embeds `extractUniqueTeams`: collect the first occurrence of every truthy team
name from the fetched `teamsData` as an unselected item, then sort by value. -/
def extractUniqueTeams (teamsData : List GitHubTeam) : List DropdownFilterItem :=
  let teams := teamsData.foldl (fun acc team =>
    if team.name ≠ "" then
      if acc.any (fun t => t.value = team.name) then acc
      else acc ++ [{ value := team.name, isSelected := false }]
    else acc) []
  teams.insertionSort (fun a b => a.value ≤ b.value)

/-! ### Refresh protocol (`refreshDataWithTeams` and its callers) -/

/-- The `{success, data} | {success, error}` result shape of the
`refreshMetricsData` / `refreshSeatsData` server actions. -/
inductive RefreshResult (α : Type) where
  | success (data : α)
  | failure (error : String)
deriving DecidableEq

/-- Embeds `refreshMetricsData` from `dashboard-actions`: converts the metrics
service response into the `{success, data} | {success, error}` shape, using
the first error message when truthy and the fixed fallback otherwise. -/
def refreshMetricsData (metrics : ServerActionResponse (List CopilotUsageOutput)) :
    RefreshResult (List CopilotUsageOutput) :=
  match metrics with
  | .ok response => .success response
  | .err errors =>
    let message := errors.headD ""
    .failure (if message = "" then "Failed to fetch metrics" else message)

/-- Embeds `refreshSeatsData` from `dashboard-actions`: same conversion for the seat
service response. -/
def refreshSeatsData (seats : ServerActionResponse CopilotSeatsData) :
    RefreshResult CopilotSeatsData :=
  match seats with
  | .ok response => .success response
  | .err errors =>
    let message := errors.headD ""
    .failure (if message = "" then "Failed to fetch seats data" else message)

/-- What the awaited `Promise.all` of the two server actions produced:
either both settled results, or the await threw (the `catch` path). -/
inductive RefreshOutcome where
  | settled (metricsResult : RefreshResult (List CopilotUsageOutput))
            (seatsResult : RefreshResult CopilotSeatsData)
  | threw
deriving DecidableEq

/-- Reapply the prior `isSelected` flags onto a rebuilt team list by matching
on the value (the `this.teams.forEach(...)` restore loop). -/
def restoreTeamSelections (fresh prior : List DropdownFilterItem) : List DropdownFilterItem :=
  fresh.map (fun team =>
    match prior.find? (fun t => t.value = team.value) with
    | some previousSelection => { team with isSelected := previousSelection.isSelected }
    | none => team)

/-- The metrics-success block of `refreshDataWithTeams`: replace `apiData`,
re-extract the language and editor items, rebuild the team items (from the
stored `teamsData`, which the refresh does not replace) restoring the prior
selections by value, then recompute `filteredData`. -/
def applyMetricsSuccess (s : DashboardState) (data : List CopilotUsageOutput) :
    DashboardState :=
  let s := { s with
    apiData := data,
    languages := extractUniqueLanguages data,
    editors := extractUniqueEditors data }
  let currentTeamSelections := s.teams
  let s := { s with
    teams := restoreTeamSelections (extractUniqueTeams s.teamsData) currentTeamSelections }
  { s with filteredData := applyFilters s }

/-- Step 1 of the refresh protocol: raise the loading flag. -/
def refreshStart (s : DashboardState) : DashboardState := { s with isLoading := true }

/-- Embeds `refreshDataWithTeams`: raise the loading flag, await both server
actions, fold each successful half into the state (a failed or thrown half
is logged and leaves its half untouched), and clear the loading flag on the
`finally` path.  `selectedTeams` is what the two server requests are scoped
to; the server's reply is the exogenous `outcome`. -/
def refreshDataWithTeams (s : DashboardState) (selectedTeams : List String)
    (outcome : RefreshOutcome) : DashboardState :=
  let started := refreshStart s
  let afterBody :=
    match outcome with
    | .threw => started
    | .settled metricsResult seatsResult =>
      let afterMetrics :=
        match metricsResult with
        | .success data => applyMetricsSuccess started data
        | .failure _ => started
      match seatsResult with
      | .success data => { afterMetrics with seatsData := data }
      | .failure _ => afterMetrics
  { afterBody with isLoading := false }

/-- The `items.forEach(item => item.isSelected = false)` loops of
`resetAllFilters`. -/
def clearSelections (items : List DropdownFilterItem) : List DropdownFilterItem :=
  items.map (fun item => { item with isSelected := false })

/-- The synchronous part of `resetAllFilters`: clear every selection flag on
the three dropdown collections, clear the weekend-hide and pending flags, and
recompute `filteredData`. -/
def resetAllFiltersSync (s : DashboardState) : DashboardState :=
  let s := { s with
    languages := clearSelections s.languages,
    editors := clearSelections s.editors,
    teams := clearSelections s.teams,
    hideWeekends := false,
    hasPendingTeamChanges := false }
  { s with filteredData := applyFilters s }

/-- Embeds `resetAllFilters`: the synchronous clear/recompute followed by a server
refresh with an empty team selection. -/
def resetAllFilters (s : DashboardState) (outcome : RefreshOutcome) : DashboardState :=
  refreshDataWithTeams (resetAllFiltersSync s) [] outcome

/-- The currently selected team values
(`this.teams.filter(t => t.isSelected).map(t => t.value)`). -/
def selectedTeamValues (s : DashboardState) : List String :=
  (s.teams.filter (fun t => t.isSelected)).map (fun t => t.value)

/-- Embeds `refreshTeamDataIfNeeded` (the team-dropdown close handler): when team
changes are pending, invoke the refresh with the currently selected team
values and then clear the pending flag; otherwise do nothing.  The first
component records the refresh invocation that was issued (`none` = no server
call). -/
def refreshTeamDataIfNeeded (s : DashboardState) (outcome : RefreshOutcome) :
    Option (List String) × DashboardState :=
  if s.hasPendingTeamChanges then
    let selectedTeams := selectedTeamValues s
    let refreshed := refreshDataWithTeams s selectedTeams outcome
    (some selectedTeams, { refreshed with hasPendingTeamChanges := false })
  else (none, s)

/-! ### Helper lemmas and sample states -/

/-- The function `applyFilters` reads only the raw data, the language/editor selections,
the time frame and the weekend flag. -/
theorem applyFilters_congr {s t : DashboardState} (hapi : s.apiData = t.apiData)
    (hlang : s.languages = t.languages) (hed : s.editors = t.editors)
    (htf : s.timeFrame = t.timeFrame) (hw : s.hideWeekends = t.hideWeekends) :
    applyFilters s = applyFilters t := by
  unfold applyFilters
  rw [hapi, hlang, hed, htf, hw]

/-- A concrete breakdown entry for the sample states. -/
def sampleBreakdown : Breakdown :=
  { language := "ts", editor := "vscode", suggestions_count := 10,
    acceptances_count := 5, chat_count := 2 }

/-- A concrete usage record for the sample states. -/
def sampleRecord : CopilotUsageOutput :=
  { day := 1, time_frame_week := "2024-W01", time_frame_month := "2024-01",
    time_frame_display := "", breakdown := [sampleBreakdown] }

/-- An empty seat summary for the sample states. -/
def emptySeats : CopilotSeatsData :=
  { enterprise := none, organization := none, total_seats := 0,
    total_active_seats := some 0, seats := [], page := 0,
    has_next_page := false, last_update := none, date := "", id := "" }

/-- A concrete server filter for the sample states. -/
def sampleFilter : CurrentFilter :=
  { startDate := none, endDate := none, enterprise := some "acme", organization := none }

/-- A small concrete dashboard state (pending team change, idle loading flag)
used by the witnesses. -/
def sampleState : DashboardState :=
  { filteredData := [],
    languages := [{ value := "ts", isSelected := false }],
    editors := [{ value := "vscode", isSelected := false }],
    teams := [{ value := "T1", isSelected := true }],
    timeFrame := .daily, hideWeekends := false, isLoading := false,
    seatsData := emptySeats, teamsData := [{ id := none, name := "T1" }],
    apiData := [sampleRecord], hasPendingTeamChanges := true,
    currentFilter := sampleFilter }

/-- The sample state with no pending team change. -/
def idleState : DashboardState := { sampleState with hasPendingTeamChanges := false }

/-! ### Claims about the refresh protocol -/

/-- C5: during a refresh, a failed metrics half leaves `apiData`, the
language/editor/team collections and `filteredData` at their previous values;
a failed seats half leaves the seat summary at its previous value; and a
thrown await (the `catch` path) leaves both halves untouched.  No failure is
surfaced to the caller: `refreshDataWithTeams` is a total function into the
state (the source logs and swallows the error and resolves normally). -/
theorem refresh_partial_failure_frame (s : DashboardState) (selectedTeams : List String) :
    (∀ e seatsResult,
      (refreshDataWithTeams s selectedTeams (.settled (.failure e) seatsResult)).apiData
          = s.apiData ∧
      (refreshDataWithTeams s selectedTeams (.settled (.failure e) seatsResult)).languages
          = s.languages ∧
      (refreshDataWithTeams s selectedTeams (.settled (.failure e) seatsResult)).editors
          = s.editors ∧
      (refreshDataWithTeams s selectedTeams (.settled (.failure e) seatsResult)).teams
          = s.teams ∧
      (refreshDataWithTeams s selectedTeams (.settled (.failure e) seatsResult)).filteredData
          = s.filteredData) ∧
    (∀ metricsResult e,
      (refreshDataWithTeams s selectedTeams (.settled metricsResult (.failure e))).seatsData
          = s.seatsData) ∧
    ((refreshDataWithTeams s selectedTeams .threw).apiData = s.apiData ∧
     (refreshDataWithTeams s selectedTeams .threw).languages = s.languages ∧
     (refreshDataWithTeams s selectedTeams .threw).editors = s.editors ∧
     (refreshDataWithTeams s selectedTeams .threw).teams = s.teams ∧
     (refreshDataWithTeams s selectedTeams .threw).filteredData = s.filteredData ∧
     (refreshDataWithTeams s selectedTeams .threw).seatsData = s.seatsData) := by
  refine ⟨fun e seatsResult => ?_, fun metricsResult e => ?_, ?_⟩
  · cases seatsResult <;> exact ⟨rfl, rfl, rfl, rfl, rfl⟩
  · cases metricsResult <;> rfl
  · exact ⟨rfl, rfl, rfl, rfl, rfl, rfl⟩

/-- C6: the refresh protocol raises the loading flag as its first step
(`refreshStart`, the head of `refreshDataWithTeams`) and clears it back to
false on resolution for every outcome — both server halves succeeding,
either failing, or the await throwing — via the `finally` path; and the
pending-team-toggle → dropdown-close path issues exactly one refresh call,
scoped to the currently selected team values, and also ends with the flag
cleared. -/
theorem refresh_loading_transitions (s : DashboardState) (selectedTeams : List String)
    (outcome : RefreshOutcome) (hIdle : s.isLoading = false) :
    s.isLoading = false ∧
    (refreshStart s).isLoading = true ∧
    (refreshDataWithTeams s selectedTeams outcome).isLoading = false ∧
    (s.hasPendingTeamChanges = true →
      (refreshTeamDataIfNeeded s outcome).1 = some (selectedTeamValues s) ∧
      ((refreshTeamDataIfNeeded s outcome).2).isLoading = false) := by
  refine ⟨hIdle, rfl, rfl, fun hp => ?_⟩
  unfold refreshTeamDataIfNeeded
  rw [if_pos hp]
  exact ⟨rfl, rfl⟩

/-- Witness for C6 on the sample state (pending change set, idle flag),
with a thrown refresh outcome. -/
theorem refresh_loading_transitions_witness :
    (refreshTeamDataIfNeeded sampleState RefreshOutcome.threw).1 =
      some (selectedTeamValues sampleState) ∧
    ((refreshTeamDataIfNeeded sampleState RefreshOutcome.threw).2).isLoading = false :=
  (refresh_loading_transitions sampleState [] RefreshOutcome.threw rfl).2.2.2 rfl

/-- The sample state with a different stored team list (`T2` instead of
`T1`), for the C7 counterexample. -/
def otherTeamsState : DashboardState :=
  { sampleState with teamsData := [{ id := none, name := "T2" }] }

/-- C7 counterexample: the refresh rebuilds the team dropdown from the
*stored* `teamsData` (fetched at initial load and never replaced by the
refresh, which requests only metrics and seats), not from the fresh data.
Were the rebuild a function of the fresh payload and the pre-refresh team
items, two states with equal team items refreshed with the identical
successful payload would end with equal team collections; `sampleState`
(stored team list `T1`) and `otherTeamsState` (stored team list `T2`) have
equal team items, receive the same payload, and end with different team
collections. -/
theorem refresh_teams_rebuild_counterexample :
    otherTeamsState.teams = sampleState.teams ∧
    (refreshDataWithTeams sampleState []
        (.settled (.success [sampleRecord]) (.failure "boom"))).teams ≠
      (refreshDataWithTeams otherTeamsState []
        (.settled (.success [sampleRecord]) (.failure "boom"))).teams := by
  decide

/-- C7 (amended): when the metrics half of a refresh succeeds, the team
collection is rebuilt from the stored `teamsData` — the team list fetched at
initial load, which the refresh does not replace — with each rebuilt item
matching a pre-refresh item by value receiving that item's `isSelected`
flag, and `filteredData` is recomputed from the fresh data and the rebuilt
dropdown collections. -/
theorem refresh_metrics_success_rebuilds_teams (s : DashboardState)
    (selectedTeams : List String) (data : List CopilotUsageOutput)
    (seatsResult : RefreshResult CopilotSeatsData) :
    (refreshDataWithTeams s selectedTeams (.settled (.success data) seatsResult)).teams =
      restoreTeamSelections (extractUniqueTeams s.teamsData) s.teams ∧
    (refreshDataWithTeams s selectedTeams (.settled (.success data) seatsResult)).filteredData =
      applyFilters { s with
        apiData := data,
        languages := extractUniqueLanguages data,
        editors := extractUniqueEditors data } := by
  cases seatsResult <;>
    exact ⟨rfl, applyFilters_congr rfl rfl rfl rfl rfl⟩

/-! ### Claims about the local filter operations -/

/-- C9: every local filter operation leaves the raw dataset `apiData`
unchanged.  The source recomputes `filteredData` from
`JSON.parse(JSON.stringify(this.apiData))`, a deep copy, and never writes
`apiData`; in this value-semantics model the deep copy is the identity and
the frame condition is that each operation preserves the `apiData` field. -/
theorem local_filter_ops_preserve_apiData (s : DashboardState)
    (language editor team : String) (timeFrame : TimeFrame) (hide : Bool) :
    (filterLanguage language s).apiData = s.apiData ∧
    (filterEditor editor s).apiData = s.apiData ∧
    (filterTeam team s).apiData = s.apiData ∧
    (toggleWeekendFilter hide s).apiData = s.apiData ∧
    (onTimeFrameChange timeFrame s).apiData = s.apiData ∧
    (resetAllFiltersSync s).apiData = s.apiData := by
  refine ⟨?_, ?_, ?_, rfl, rfl, rfl⟩
  · unfold filterLanguage
    split <;> rfl
  · unfold filterEditor
    split <;> rfl
  · unfold filterTeam
    split <;> rfl

/-- C10: toggling a team value that is not in the team collection is a
complete no-op — the state is unchanged, so no selection flag flips, no
recompute happens and the pending flag stays unset — and the subsequent
dropdown-close handler issues no server refresh. -/
theorem filterTeam_absent_noop (s : DashboardState) (team : String)
    (outcome : RefreshOutcome)
    (hAbsent : ∀ i ∈ s.teams, i.value ≠ team)
    (hNoPending : s.hasPendingTeamChanges = false) :
    filterTeam team s = s ∧
    refreshTeamDataIfNeeded (filterTeam team s) outcome = (none, filterTeam team s) := by
  have hfind : s.teams.find? (fun t => t.value = team) = none := by
    rw [List.find?_eq_none]
    intro x hx
    simp [hAbsent x hx]
  have hsame : filterTeam team s = s := by
    unfold filterTeam
    rw [hfind]
  refine ⟨hsame, ?_⟩
  rw [hsame]
  unfold refreshTeamDataIfNeeded
  simp [hNoPending]

/-- Witness for C10: toggling the absent team value `ghost` on the idle
sample state. -/
theorem filterTeam_absent_noop_witness :
    filterTeam "ghost" idleState = idleState ∧
    refreshTeamDataIfNeeded (filterTeam "ghost" idleState) RefreshOutcome.threw =
      (none, filterTeam "ghost" idleState) :=
  filterTeam_absent_noop idleState "ghost" RefreshOutcome.threw (by decide) rfl

/-- Toggling the same value twice restores the item list. -/
theorem toggleFirstItem_toggleFirstItem (value : String) (items : List DropdownFilterItem) :
    toggleFirstItem value (toggleFirstItem value items) = items := by
  induction items with
  | nil => rfl
  | cons item rest ih =>
    by_cases h : item.value = value
    · obtain ⟨v, sel⟩ := item
      dsimp at h
      subst h
      simp [toggleFirstItem, Bool.not_not]
    · simp [toggleFirstItem, h, ih]

/-- Toggling preserves whether a value is present in the item list. -/
theorem find?_toggleFirstItem_isSome (value : String) (items : List DropdownFilterItem) :
    ((toggleFirstItem value items).find? (fun l => l.value = value)).isSome =
      (items.find? (fun l => l.value = value)).isSome := by
  induction items with
  | nil => rfl
  | cons item rest ih =>
    by_cases h : item.value = value
    · simp [toggleFirstItem, h, List.find?_cons]
    · simp [toggleFirstItem, h, List.find?_cons, ih]

/-- Closed form of `filterLanguage` when the value is present. -/
theorem filterLanguage_found (s : DashboardState) (language : String)
    (h : (s.languages.find? (fun l => l.value = language)).isSome) :
    filterLanguage language s =
      { s with
        languages := toggleFirstItem language s.languages,
        filteredData := applyFilters
          { s with languages := toggleFirstItem language s.languages } } := by
  obtain ⟨item, hit⟩ := Option.isSome_iff_exists.mp h
  unfold filterLanguage
  rw [hit]

/-- Closed form of `filterEditor` when the value is present. -/
theorem filterEditor_found (s : DashboardState) (editor : String)
    (h : (s.editors.find? (fun l => l.value = editor)).isSome) :
    filterEditor editor s =
      { s with
        editors := toggleFirstItem editor s.editors,
        filteredData := applyFilters
          { s with editors := toggleFirstItem editor s.editors } } := by
  obtain ⟨item, hit⟩ := Option.isSome_iff_exists.mp h
  unfold filterEditor
  rw [hit]

/-- C8: on a state whose `filteredData` is the derived projection of its
current selections (the invariant every reachable state satisfies, since
`initData` and every mutation end by recomputing it), toggling a language or
editor filter value that is present in its dropdown collection and toggling
it again restores `filteredData` to its pre-toggle value. -/
theorem filter_toggle_involution (s : DashboardState) (value : String)
    (hDerived : s.filteredData = applyFilters s) :
    ((∃ i ∈ s.languages, i.value = value) →
      (filterLanguage value (filterLanguage value s)).filteredData = s.filteredData) ∧
    ((∃ i ∈ s.editors, i.value = value) →
      (filterEditor value (filterEditor value s)).filteredData = s.filteredData) := by
  constructor
  · intro hpresent
    have h1 : (s.languages.find? (fun l => l.value = value)).isSome := by
      rw [List.find?_isSome]
      simpa using hpresent
    rw [filterLanguage_found s value h1]
    have h2 : ((toggleFirstItem value s.languages).find?
        (fun l => l.value = value)).isSome := by
      rw [find?_toggleFirstItem_isSome]
      exact h1
    rw [filterLanguage_found _ value h2]
    rw [hDerived]
    dsimp only
    rw [toggleFirstItem_toggleFirstItem]
    exact applyFilters_congr rfl rfl rfl rfl rfl
  · intro hpresent
    have h1 : (s.editors.find? (fun l => l.value = value)).isSome := by
      rw [List.find?_isSome]
      simpa using hpresent
    rw [filterEditor_found s value h1]
    have h2 : ((toggleFirstItem value s.editors).find?
        (fun l => l.value = value)).isSome := by
      rw [find?_toggleFirstItem_isSome]
      exact h1
    rw [filterEditor_found _ value h2]
    rw [hDerived]
    dsimp only
    rw [toggleFirstItem_toggleFirstItem]
    exact applyFilters_congr rfl rfl rfl rfl rfl

/-- The sample state with its `filteredData` recomputed, so it satisfies the
derived-state invariant. -/
def consistentState : DashboardState :=
  { sampleState with filteredData := applyFilters sampleState }

/-- Witness for C8: double-toggling language `ts` on the consistent sample
state. -/
theorem filter_toggle_involution_witness :
    (filterLanguage "ts" (filterLanguage "ts" consistentState)).filteredData =
      consistentState.filteredData :=
  (filter_toggle_involution consistentState "ts" (by decide)).1
    ⟨{ value := "ts", isSelected := false }, by decide, rfl⟩

/-- Items with cleared selections are all unselected. -/
theorem mem_clearSelections {i : DropdownFilterItem} {items : List DropdownFilterItem}
    (h : i ∈ clearSelections items) : i.isSelected = false := by
  obtain ⟨x, _, rfl⟩ := List.mem_map.mp h
  rfl

/-- No cleared item passes the `isSelected` filter. -/
theorem filter_isSelected_clearSelections (items : List DropdownFilterItem) :
    (clearSelections items).filter (fun item => item.isSelected) = [] := by
  induction items with
  | nil => rfl
  | cons item rest ih =>
    simp [clearSelections, List.filter_cons, ih]

/-- With no language and no editor selected, `applyFilters` is the bucketed
dataset restricted to records with a non-empty breakdown. -/
theorem applyFilters_no_selection (s : DashboardState)
    (hl : s.languages.filter (fun item => item.isSelected) = [])
    (he : s.editors.filter (fun item => item.isSelected) = []) :
    applyFilters s =
      (aggregatedDataByTimeFrame s.apiData s.timeFrame s.hideWeekends).filter
        (fun item => item.breakdown.length > 0) := by
  unfold applyFilters
  rw [hl, he]
  simp

/-- A usage record with an empty breakdown, for the C4 counterexample. -/
def emptyBreakdownRecord : CopilotUsageOutput :=
  { day := 2, time_frame_week := "2024-W01", time_frame_month := "2024-01",
    time_frame_display := "", breakdown := [] }

/-- The sample state with an empty-breakdown record as its raw dataset. -/
def emptyBreakdownState : DashboardState :=
  { sampleState with apiData := [emptyBreakdownRecord] }

/-- C4 counterexample: on a state whose raw dataset holds a record with an
empty breakdown (daily time frame), the synchronous part of
`resetAllFilters` produces a `filteredData` that is NOT the full unfiltered
time-bucketed dataset derived from `apiData`: the final
`breakdown.length > 0` filter of `applyFilters` drops the record even though
no filter is selected. -/
theorem reset_filters_counterexample :
    (resetAllFiltersSync emptyBreakdownState).filteredData ≠
      aggregatedDataByTimeFrame emptyBreakdownState.apiData
        emptyBreakdownState.timeFrame false := by
  decide

/-- C4 (amended): after the synchronous part of `resetAllFilters`, every
item of the three dropdown collections is unselected, the weekend-hide and
pending flags are cleared, and `filteredData` equals the full unfiltered
time-bucketed dataset derived from `apiData` restricted to records whose
breakdown is non-empty; `resetAllFilters` then triggers the server refresh
with an empty team selection. -/
theorem reset_filters_spec (s : DashboardState) (outcome : RefreshOutcome) :
    (∀ i ∈ (resetAllFiltersSync s).languages, i.isSelected = false) ∧
    (∀ i ∈ (resetAllFiltersSync s).editors, i.isSelected = false) ∧
    (∀ i ∈ (resetAllFiltersSync s).teams, i.isSelected = false) ∧
    (resetAllFiltersSync s).hideWeekends = false ∧
    (resetAllFiltersSync s).hasPendingTeamChanges = false ∧
    (resetAllFiltersSync s).filteredData =
      (aggregatedDataByTimeFrame s.apiData s.timeFrame false).filter
        (fun item => item.breakdown.length > 0) ∧
    resetAllFilters s outcome = refreshDataWithTeams (resetAllFiltersSync s) [] outcome := by
  refine ⟨fun i hi => mem_clearSelections hi, fun i hi => mem_clearSelections hi,
    fun i hi => mem_clearSelections hi, rfl, rfl, ?_, rfl⟩
  exact applyFilters_no_selection _ (filter_isSelected_clearSelections _)
    (filter_isSelected_clearSelections _)

/-- Witness for C4 (amended) on the sample state with a thrown refresh
outcome. -/
theorem reset_filters_spec_witness :
    (resetAllFiltersSync sampleState).filteredData =
      (aggregatedDataByTimeFrame sampleState.apiData sampleState.timeFrame false).filter
        (fun item => item.breakdown.length > 0) ∧
    resetAllFilters sampleState RefreshOutcome.threw =
      refreshDataWithTeams (resetAllFiltersSync sampleState) [] RefreshOutcome.threw :=
  ⟨(reset_filters_spec sampleState RefreshOutcome.threw).2.2.2.2.2.1,
   (reset_filters_spec sampleState RefreshOutcome.threw).2.2.2.2.2.2⟩

end CopilotDashboard
